import Mathlib

/-!
Verification development for the distfs FUSE driver
(src/fuse/native/src/fuse-operations.cpp, java.cpp, main.cpp).

The driver's handlers are embedded shallowly.  Machine integers are
modelled as Nat/Int: `off_t` (signed 64-bit) is embedded as `Int` with the
source's comparisons against LLONG_MAX translated literally, `size_t` as
`Nat`, and the one unsigned 64-bit C conversion (in dfs_write's overflow
check, where a `long long` is added to a `size_t`) is made explicit with
`% 2 ^ 64`.  The JNI boundary is embedded as an environment record `Env`
holding the outcome of each remote method call (each handler invokes each
named remote method at most once), of the thread attach, and of the
byte-array encode/decode steps.  Every handler returns its POSIX result
together with the exact sequence of boundary events it performs (attach,
detach, remote calls with their arguments, log writes), so that claims
about call ordering, attach/detach bracketing and log silence are
statements about the returned trace.
-/

/-! POSIX errno values (Linux).  The source returns the negation of these.
`EIOERR` models errno `EIO`; it is renamed because no declaration in this
development may end in the name of the Lean `IO` namespace. -/

def EPERM : Int := 1

def ENOENT : Int := 2

def EIOERR : Int := 5

def EACCES : Int := 13

def EEXIST : Int := 17

def ENOTDIR : Int := 20

def EISDIR : Int := 21

def EINVAL : Int := 22

def EFBIG : Int := 27

def ENOTSUP : Int := 95

def ECANCELED : Int := 125

/-- Value returned by FUSE interface functions when there is no error. -/
def SUCCESS : Int := 0

/-! Access-request bits (unistd.h) and owner-class mode bits (sys/stat.h). -/

def R_OK : Nat := 4

def W_OK : Nat := 2

def X_OK : Nat := 1

def S_IRUSR : Nat := 0o400

def S_IWUSR : Nat := 0o200

def S_IXUSR : Nat := 0o100

def S_IFDIR : Nat := 0o040000

def S_IFREG : Nat := 0o100000

/-- Mask of the object-type bits of a mode word. -/
def S_IFMT : Nat := 0o170000

/-! Open flags (fcntl.h, Linux).  `O_RDONLY` is zero, so the test
`(flags & O_RDONLY) == O_RDONLY` in dfs_open holds for every flags word. -/

def O_RDONLY : Nat := 0

def O_WRONLY : Nat := 1

def O_RDWR : Nat := 2

def O_EXCL : Nat := 0o200

/-- Maximum value of a signed 32-bit integer (INT_MAX). -/
def INT_MAX_N : Nat := 2 ^ 31 - 1

/-- Maximum value of a signed 64-bit integer (LLONG_MAX), as an Int. -/
def LLONG_MAX : Int := 2 ^ 63 - 1

/-- Maximum value of a signed 64-bit integer, as a Nat, for the unsigned
comparison in dfs_write. -/
def LLONG_MAX_N : Nat := 2 ^ 63 - 1

/-- Modulus of unsigned 64-bit arithmetic. -/
def UINT64_MOD : Nat := 2 ^ 64

/-- Mask defining which bits are used for file permissions
(fuse-operations.cpp, PERMISSION_MASK). -/
def PERMISSION_MASK : Nat := 0o777

/-- Number of bytes cleared by the memset in dfs_getattr: the source
writes `memset(status, 0, sizeof(status))` where `status` is a pointer,
so the extent is the size of a pointer (8 on LP64), not the size of the
`stat` structure. -/
def sizeof_pointer : Nat := 8

/-- FUSE driver filesystem-specific options (struct option_list). -/
structure OptionList where
  hostname : String
  file_mode : Nat
  directory_mode : Nat
  log_file : Option String
deriving DecidableEq

/-- Default option values (fuse-operations.cpp line 53). -/
def default_options : OptionList :=
  ⟨"127.0.0.1", 0o644, 0o755, none⟩

/-- The sanitization step of parse_options (fuse-operations.cpp lines
88-94): after fuse_opt_parse has populated the option structure, the file
mode and directory mode are masked with PERMISSION_MASK.  The input is the
populated structure (defaults, or values parsed from the command line). -/
def parse_options (o : OptionList) : OptionList :=
  { o with
      file_mode := o.file_mode &&& PERMISSION_MASK,
      directory_mode := o.directory_mode &&& PERMISSION_MASK }

/-- dfs_is_root: exact comparison of the path against the literal. -/
def dfs_is_root (path : String) : Bool :=
  path == "/"

/-- dfs_may_access: for each of read/write/execute set in the request,
require the corresponding owner-class bit of the mode; deny with
`-EACCES` if any required bit is absent. -/
def dfs_may_access (mode request : Nat) : Int :=
  if request &&& R_OK ≠ 0 ∧ mode &&& S_IRUSR = 0 then -EACCES
  else if request &&& W_OK ≠ 0 ∧ mode &&& S_IWUSR = 0 then -EACCES
  else if request &&& X_OK ≠ 0 ∧ mode &&& S_IXUSR = 0 then -EACCES
  else SUCCESS

/-- dfs_listing_allowed: read bit of the directory mode. -/
def dfs_listing_allowed (o : OptionList) : Bool :=
  dfs_may_access o.directory_mode R_OK == SUCCESS

/-- dfs_directory_modification_allowed: write bit of the directory mode. -/
def dfs_directory_modification_allowed (o : OptionList) : Bool :=
  dfs_may_access o.directory_mode W_OK == SUCCESS

/-- dfs_traversals_allowed: execute bit of the directory mode. -/
def dfs_traversals_allowed (o : OptionList) : Bool :=
  dfs_may_access o.directory_mode X_OK == SUCCESS

/-- A Java exception is observed by the driver only through JNI
IsInstanceOf tests against class names, so it is embedded as that
predicate: `isInstanceOf n` holds when the thrown object is an instance
of (the class or a subclass of) the class named `n`. -/
structure JavaException where
  isInstanceOf : String → Bool

/-- POSIX error value for unrecognized Java exceptions (java.cpp). -/
def DEFAULT_ERROR : Int := EIOERR

/-- Exception translation table (java.cpp lines 62-65).  If two listed
exceptions have a subclass relation, the subclass must be listed first. -/
def exceptions : List (String × Int) :=
  [("java/lang/IllegalArgumentException", EINVAL),
   ("java/lang/IndexOutOfBoundsException", EINVAL),
   ("java/io/FileNotFoundException", ENOENT)]

/-- The loop of java_error_code: linear scan of the table; entries whose
class cannot be resolved by FindClass are skipped; the first entry whose
class the exception is an instance of wins. -/
def find_error_code (findClass : String → Bool) (exc : JavaException) :
    List (String × Int) → Int
  | [] => DEFAULT_ERROR
  | (name, code) :: rest =>
    if findClass name then
      if exc.isInstanceOf name then code
      else find_error_code findClass exc rest
    else find_error_code findClass exc rest

/-- java_error_code (java.cpp lines 180-206): if the JNI environment for
the current thread cannot be obtained, the default error is returned;
otherwise the table is scanned linearly. -/
def java_error_code (jni_env_ok : Bool) (findClass : String → Bool)
    (exc : JavaException) : Int :=
  if jni_env_ok then find_error_code findClass exc exceptions
  else DEFAULT_ERROR

/-- Boundary events performed by a handler, in program order: thread
attach (successful or failed), thread detach, a completed log line, and
each remote method call with the arguments the driver passes to it. -/
inductive Event where
  | attachOk : Event
  | attachFail : Event
  | detach : Event
  | logLine : Event
  | callDirectory (path : String) : Event
  | callSize (path : String) : Event
  | callCreateFile (path : String) : Event
  | callCreateDirectory (path : String) : Event
  | callDelete (path : String) : Event
  | callRead (path : String) (offset : Int) (length : Int) (handle : Int) : Event
  | callWrite (path : String) (offset : Int) (buffer : List Nat) : Event
  | callList (path : String) : Event
  | callInitHost (host : String) : Event
deriving DecidableEq

/-- Outcome of one remote call through the JNI boundary: a typed result,
a structured Java exception, or a failure to deliver the call at all
(java_call returning false with no exception recorded). -/
inductive CallResult (α : Type) where
  | ok (value : α) : CallResult α
  | fault (exc : JavaException) : CallResult α
  | transport : CallResult α

/-- Environment of one handler invocation: the outcome of each boundary
step the handler may perform.  Each handler calls each named remote
method at most once, so one field per method suffices. -/
structure Env where
  attach_ok : Bool
  encode_path_ok : Bool
  encode_buffer_ok : Bool
  decode_ok : Bool
  jni_env_ok : Bool
  findClass : String → Bool
  directory_result : CallResult Bool
  size_result : CallResult Int
  createFile_result : CallResult Bool
  createDirectory_result : CallResult Bool
  delete_result : CallResult Bool
  read_result : CallResult (List Nat)
  write_result : CallResult Unit
  list_result : CallResult (List Nat)
  fill_full : Nat → Bool
  log_init_ok : Bool
  init_vm_ok : Bool
  load_classes_exc : Option JavaException
  encode_host_ok : Bool
  init_call_result : CallResult Unit

/-- A call to log_write_real produces a line in the log file only when a
log file is configured; otherwise it is a no-op. -/
def logEv (o : OptionList) : List Event :=
  match o.log_file with
  | none => []
  | some _ => [Event.logLine]

/-- Error code attached to a Java exception, as computed on the current
thread (java_error_code with this invocation's JNI environment). -/
def env_error_code (env : Env) (exc : JavaException) : Int :=
  java_error_code env.jni_env_ok env.findClass exc

/-- The fields of `struct stat` that the driver touches or that the
claims mention, with their x86-64 Linux glibc offsets recorded in
`memset_prefix` below. -/
structure Stat where
  st_dev : Int
  st_ino : Int
  st_nlink : Int
  st_mode : Nat
  st_uid : Int
  st_gid : Int
  st_rdev : Int
  st_size : Int
deriving DecidableEq

/-- Effect of `memset(status, 0, n)` on the modelled fields: a field is
zeroed exactly when its byte range (x86-64 Linux glibc layout: st_dev at
offset 0 size 8, st_ino at 8 size 8, st_nlink at 16 size 8, st_mode at 24
size 4, st_uid at 28 size 4, st_gid at 32 size 4, st_rdev at 40 size 8,
st_size at 48 size 8) lies inside the first `n` bytes.  No modelled field
is partially covered for the value of `n` the driver uses. -/
def memset_prefix (n : Nat) (s : Stat) : Stat :=
  { st_dev := if 0 + 8 ≤ n then 0 else s.st_dev,
    st_ino := if 8 + 8 ≤ n then 0 else s.st_ino,
    st_nlink := if 16 + 8 ≤ n then 0 else s.st_nlink,
    st_mode := if 24 + 4 ≤ n then 0 else s.st_mode,
    st_uid := if 28 + 4 ≤ n then 0 else s.st_uid,
    st_gid := if 32 + 4 ≤ n then 0 else s.st_gid,
    st_rdev := if 40 + 8 ≤ n then 0 else s.st_rdev,
    st_size := if 48 + 8 ≤ n then 0 else s.st_size }

/-- dfs_getattr (fuse-operations.cpp lines 521-563).  Returns the POSIX
result, the contents of the caller's stat structure on return, and the
boundary-event trace. -/
def dfs_getattr (o : OptionList) (env : Env) (path : String) (status : Stat) :
    Int × Stat × List Event :=
  if !dfs_is_root path && !dfs_traversals_allowed o then
    (-EACCES, status, [])
  else if !env.attach_ok then
    (-EIOERR, status, [Event.attachFail] ++ logEv o)
  else if !env.encode_path_ok then
    (-EIOERR, status, [Event.attachOk] ++ logEv o ++ [Event.detach])
  else
    match env.directory_result with
    | CallResult.fault exc =>
      (-(env_error_code env exc), status,
        [Event.attachOk, Event.callDirectory path] ++ logEv o ++ [Event.detach])
    | CallResult.transport =>
      (-EIOERR, status,
        [Event.attachOk, Event.callDirectory path] ++ logEv o ++ [Event.detach])
    | CallResult.ok directory =>
      let cleared := memset_prefix sizeof_pointer status
      if directory then
        (SUCCESS,
          { cleared with st_mode := S_IFDIR ||| o.directory_mode, st_nlink := 1 },
          [Event.attachOk, Event.callDirectory path, Event.detach])
      else
        match env.size_result with
        | CallResult.fault exc =>
          (-(env_error_code env exc), cleared,
            [Event.attachOk, Event.callDirectory path, Event.callSize path]
              ++ logEv o ++ [Event.detach])
        | CallResult.transport =>
          (-EIOERR, cleared,
            [Event.attachOk, Event.callDirectory path, Event.callSize path]
              ++ logEv o ++ [Event.detach])
        | CallResult.ok size =>
          (SUCCESS,
            { cleared with
                st_mode := S_IFREG ||| o.file_mode, st_size := size, st_nlink := 1 },
            [Event.attachOk, Event.callDirectory path, Event.callSize path,
              Event.detach])

/-- dfs_mknod (fuse-operations.cpp lines 576-604).  The mode and device
arguments of the C function are ignored by its body and omitted here. -/
def dfs_mknod (o : OptionList) (env : Env) (path : String) : Int × List Event :=
  if dfs_is_root path then (-EEXIST, [])
  else if !dfs_traversals_allowed o then (-EACCES, [])
  else if !dfs_directory_modification_allowed o then (-EACCES, [])
  else if !env.attach_ok then (-EIOERR, [Event.attachFail] ++ logEv o)
  else if !env.encode_path_ok then
    (-EIOERR, [Event.attachOk] ++ logEv o ++ [Event.detach])
  else
    match env.createFile_result with
    | CallResult.fault exc =>
      (-(env_error_code env exc),
        [Event.attachOk, Event.callCreateFile path] ++ logEv o ++ [Event.detach])
    | CallResult.transport =>
      (-EIOERR,
        [Event.attachOk, Event.callCreateFile path] ++ logEv o ++ [Event.detach])
    | CallResult.ok result =>
      if !result then
        (-EEXIST, [Event.attachOk, Event.callCreateFile path, Event.detach])
      else
        (SUCCESS, [Event.attachOk, Event.callCreateFile path, Event.detach])

/-- dfs_mkdir (fuse-operations.cpp lines 616-644), symmetric to dfs_mknod
with createDirectory. -/
def dfs_mkdir (o : OptionList) (env : Env) (path : String) : Int × List Event :=
  if dfs_is_root path then (-EEXIST, [])
  else if !dfs_traversals_allowed o then (-EACCES, [])
  else if !dfs_directory_modification_allowed o then (-EACCES, [])
  else if !env.attach_ok then (-EIOERR, [Event.attachFail] ++ logEv o)
  else if !env.encode_path_ok then
    (-EIOERR, [Event.attachOk] ++ logEv o ++ [Event.detach])
  else
    match env.createDirectory_result with
    | CallResult.fault exc =>
      (-(env_error_code env exc),
        [Event.attachOk, Event.callCreateDirectory path] ++ logEv o
          ++ [Event.detach])
    | CallResult.transport =>
      (-EIOERR,
        [Event.attachOk, Event.callCreateDirectory path] ++ logEv o
          ++ [Event.detach])
    | CallResult.ok result =>
      if !result then
        (-EEXIST, [Event.attachOk, Event.callCreateDirectory path, Event.detach])
      else
        (SUCCESS, [Event.attachOk, Event.callCreateDirectory path, Event.detach])

/-- dfs_delete (fuse-operations.cpp lines 656-685), serving both unlink
and rmdir.  A false result from the remote delete is logged (CANNOT_DELETE)
and mapped to `-EPERM`. -/
def dfs_delete (o : OptionList) (env : Env) (path : String) : Int × List Event :=
  if dfs_is_root path then (-EPERM, [])
  else if !dfs_traversals_allowed o then (-EACCES, [])
  else if !dfs_directory_modification_allowed o then (-EACCES, [])
  else if !env.attach_ok then (-EIOERR, [Event.attachFail] ++ logEv o)
  else if !env.encode_path_ok then
    (-EIOERR, [Event.attachOk] ++ logEv o ++ [Event.detach])
  else
    match env.delete_result with
    | CallResult.fault exc =>
      (-(env_error_code env exc),
        [Event.attachOk, Event.callDelete path] ++ logEv o ++ [Event.detach])
    | CallResult.transport =>
      (-EIOERR,
        [Event.attachOk, Event.callDelete path] ++ logEv o ++ [Event.detach])
    | CallResult.ok result =>
      if !result then
        (-EPERM,
          [Event.attachOk, Event.callDelete path] ++ logEv o ++ [Event.detach])
      else
        (SUCCESS, [Event.attachOk, Event.callDelete path, Event.detach])

/-- dfs_truncate (fuse-operations.cpp lines 709-753): only truncation to
zero is supported; implemented as directory-check, delete, re-create. -/
def dfs_truncate (o : OptionList) (env : Env) (path : String) (new_size : Int) :
    Int × List Event :=
  if new_size ≠ 0 then (-ENOTSUP, [])
  else if dfs_is_root path then (-EISDIR, [])
  else if !dfs_traversals_allowed o then (-EACCES, [])
  else if !env.attach_ok then (-EIOERR, [Event.attachFail] ++ logEv o)
  else if !env.encode_path_ok then
    (-EIOERR, [Event.attachOk] ++ logEv o ++ [Event.detach])
  else
    match env.directory_result with
    | CallResult.fault exc =>
      (-(env_error_code env exc),
        [Event.attachOk, Event.callDirectory path] ++ logEv o ++ [Event.detach])
    | CallResult.transport =>
      (-EIOERR,
        [Event.attachOk, Event.callDirectory path] ++ logEv o ++ [Event.detach])
    | CallResult.ok directory =>
      if directory then
        (-EISDIR, [Event.attachOk, Event.callDirectory path, Event.detach])
      else if dfs_may_access o.file_mode W_OK ≠ SUCCESS then
        (-EACCES, [Event.attachOk, Event.callDirectory path, Event.detach])
      else
        match env.delete_result with
        | CallResult.fault exc =>
          (-(env_error_code env exc),
            [Event.attachOk, Event.callDirectory path, Event.callDelete path]
              ++ logEv o ++ [Event.detach])
        | CallResult.transport =>
          (-EIOERR,
            [Event.attachOk, Event.callDirectory path, Event.callDelete path]
              ++ logEv o ++ [Event.detach])
        | CallResult.ok result =>
          if !result then
            (-EPERM,
              [Event.attachOk, Event.callDirectory path, Event.callDelete path]
                ++ logEv o ++ [Event.detach])
          else
            match env.createFile_result with
            | CallResult.fault exc =>
              (-(env_error_code env exc),
                [Event.attachOk, Event.callDirectory path, Event.callDelete path,
                  Event.callCreateFile path] ++ logEv o ++ [Event.detach])
            | CallResult.transport =>
              (-EIOERR,
                [Event.attachOk, Event.callDirectory path, Event.callDelete path,
                  Event.callCreateFile path] ++ logEv o ++ [Event.detach])
            | CallResult.ok result2 =>
              if !result2 then
                (-ECANCELED,
                  [Event.attachOk, Event.callDirectory path, Event.callDelete path,
                    Event.callCreateFile path, Event.detach])
              else
                (SUCCESS,
                  [Event.attachOk, Event.callDirectory path, Event.callDelete path,
                    Event.callCreateFile path, Event.detach])

/-- dfs_open (fuse-operations.cpp lines 774-820).  Returns the POSIX
result, the value of the file-handle slot on return (the remote size is
stored there on success), and the trace. -/
def dfs_open (o : OptionList) (env : Env) (path : String) (flags : Nat)
    (fh : Int) : Int × Int × List Event :=
  if dfs_is_root path then (-ENOENT, fh, [])
  else if !dfs_traversals_allowed o then (-EACCES, fh, [])
  else if !env.attach_ok then (-EIOERR, fh, [Event.attachFail] ++ logEv o)
  else if !env.encode_path_ok then
    (-EIOERR, fh, [Event.attachOk] ++ logEv o ++ [Event.detach])
  else
    match env.size_result with
    | CallResult.fault exc =>
      (-(env_error_code env exc), fh,
        [Event.attachOk, Event.callSize path] ++ logEv o ++ [Event.detach])
    | CallResult.transport =>
      (-EIOERR, fh,
        [Event.attachOk, Event.callSize path] ++ logEv o ++ [Event.detach])
    | CallResult.ok size =>
      if flags &&& O_RDWR = O_RDWR ∧
          dfs_may_access o.file_mode (R_OK ||| W_OK) ≠ SUCCESS then
        (-EACCES, fh, [Event.attachOk, Event.callSize path, Event.detach])
      else if flags &&& O_RDONLY = O_RDONLY ∧
          dfs_may_access o.file_mode R_OK ≠ SUCCESS then
        (-EACCES, fh, [Event.attachOk, Event.callSize path, Event.detach])
      else if flags &&& O_WRONLY = O_WRONLY ∧
          dfs_may_access o.file_mode W_OK ≠ SUCCESS then
        (-EACCES, fh, [Event.attachOk, Event.callSize path, Event.detach])
      else if flags &&& O_EXCL ≠ 0 then
        (-ENOTSUP, fh, [Event.attachOk, Event.callSize path, Event.detach])
      else
        (SUCCESS, size, [Event.attachOk, Event.callSize path, Event.detach])

/-- The length-saturation step shared by dfs_read and dfs_write: a
requested length above INT_MAX is clamped to INT_MAX before use. -/
def saturate_length (length : Nat) : Nat :=
  if length > INT_MAX_N then INT_MAX_N else length

/-- dfs_read (fuse-operations.cpp lines 837-885).  The native buffer is
modelled as a list of bytes of which the first `length` are the region
the caller asked to be filled; the returned list is the buffer contents
on return.  Lengths above INT_MAX are truncated for the remote call; an
offset above LLONG_MAX clears the buffer and returns zero immediately. -/
def dfs_read (o : OptionList) (env : Env) (path : String) (buffer : List Nat)
    (length : Nat) (offset : Int) (fh : Int) : Int × List Nat × List Event :=
  if offset > LLONG_MAX then
    (0, List.replicate length 0 ++ buffer.drop length, [])
  else if !env.attach_ok then (-EIOERR, buffer, [Event.attachFail] ++ logEv o)
  else if !env.encode_path_ok then
    (-EIOERR, buffer, [Event.attachOk] ++ logEv o ++ [Event.detach])
  else
    match env.read_result with
    | CallResult.fault exc =>
      (-(env_error_code env exc), buffer,
        [Event.attachOk, Event.callRead path offset (saturate_length length : Int) fh] ++ logEv o
          ++ [Event.detach])
    | CallResult.transport =>
      (-EIOERR, buffer,
        [Event.attachOk, Event.callRead path offset (saturate_length length : Int) fh] ++ logEv o
          ++ [Event.detach])
    | CallResult.ok received =>
      if !env.decode_ok then
        (-EIOERR, buffer,
          [Event.attachOk, Event.callRead path offset (saturate_length length : Int) fh] ++ logEv o
            ++ [Event.detach])
      else
        let received_length := received.length
        let filled := received ++ List.replicate (length - received_length) 0
        ((received_length : Int), filled ++ buffer.drop filled.length,
          [Event.attachOk, Event.callRead path offset (saturate_length length : Int) fh,
            Event.detach])

/-- dfs_write (fuse-operations.cpp lines 904-939).  The length is clamped
to INT_MAX; the offset checks mirror the source, including the C
usual-arithmetic conversion of `offset + length` to unsigned 64-bit. -/
def dfs_write (o : OptionList) (env : Env) (path : String) (buffer : List Nat)
    (length0 : Nat) (offset : Int) : Int × List Event :=
  if offset > LLONG_MAX then (-EFBIG, [])
  else if ((offset % (UINT64_MOD : Int)).toNat + saturate_length length0) % UINT64_MOD
      > LLONG_MAX_N then
    (-EFBIG, [])
  else if !env.attach_ok then (-EIOERR, [Event.attachFail] ++ logEv o)
  else if !env.encode_path_ok then
    (-EIOERR, [Event.attachOk] ++ logEv o ++ [Event.detach])
  else if !env.encode_buffer_ok then
    (-EIOERR, [Event.attachOk] ++ logEv o ++ [Event.detach])
  else
    match env.write_result with
    | CallResult.fault exc =>
      (-(env_error_code env exc),
        [Event.attachOk, Event.callWrite path offset (buffer.take (saturate_length length0))]
          ++ logEv o ++ [Event.detach])
    | CallResult.transport =>
      (-EIOERR,
        [Event.attachOk, Event.callWrite path offset (buffer.take (saturate_length length0))]
          ++ logEv o ++ [Event.detach])
    | CallResult.ok _ =>
      ((saturate_length length0 : Int),
        [Event.attachOk, Event.callWrite path offset (buffer.take (saturate_length length0)),
          Event.detach])

/-- The statvfs fields the driver sets. -/
structure Statvfs where
  f_bsize : Nat
  f_blocks : Nat
  f_bfree : Nat
  f_bavail : Nat
deriving DecidableEq

/-- dfs_statfs (fuse-operations.cpp lines 957-965): synthetic values,
no communication. -/
def dfs_statfs (stat : Statvfs) : Int × Statvfs × List Event :=
  (SUCCESS,
    { stat with
        f_bsize := 0x100000, f_blocks := 0x100000,
        f_bfree := 0x100000, f_bavail := 0x100000 },
    [])

/-- dfs_flush: does nothing. -/
def dfs_flush (_path : String) : Int × List Event :=
  (SUCCESS, [])

/-- dfs_release: does nothing. -/
def dfs_release (_path : String) : Int × List Event :=
  (SUCCESS, [])

/-- dfs_fsync: does nothing. -/
def dfs_fsync (_path : String) (_datasync : Int) : Int × List Event :=
  (SUCCESS, [])

/-- dfs_releasedir: does nothing. -/
def dfs_releasedir (_path : String) : Int × List Event :=
  (SUCCESS, [])

/-- dfs_fsyncdir: does nothing. -/
def dfs_fsyncdir (_path : String) (_datasync : Int) : Int × List Event :=
  (SUCCESS, [])

/-- dfs_opendir (fuse-operations.cpp lines 1026-1052): traversal check,
directory check, then listing check. -/
def dfs_opendir (o : OptionList) (env : Env) (path : String) : Int × List Event :=
  if !dfs_is_root path && !dfs_traversals_allowed o then (-EACCES, [])
  else if !env.attach_ok then (-EIOERR, [Event.attachFail] ++ logEv o)
  else if !env.encode_path_ok then
    (-EIOERR, [Event.attachOk] ++ logEv o ++ [Event.detach])
  else
    match env.directory_result with
    | CallResult.fault exc =>
      (-(env_error_code env exc),
        [Event.attachOk, Event.callDirectory path] ++ logEv o ++ [Event.detach])
    | CallResult.transport =>
      (-EIOERR,
        [Event.attachOk, Event.callDirectory path] ++ logEv o ++ [Event.detach])
    | CallResult.ok result =>
      if !result then
        (-ENOTDIR, [Event.attachOk, Event.callDirectory path, Event.detach])
      else if !dfs_listing_allowed o then
        (-EACCES, [Event.attachOk, Event.callDirectory path, Event.detach])
      else
        (SUCCESS, [Event.attachOk, Event.callDirectory path, Event.detach])

/-- The walk of dfs_readdir over the NUL-separated child-name stream,
written with explicit fuel so that it is structurally recursive (each
step consumes at least one byte, so fuel equal to the stream length is
enough): each name is the bytes up to the next NUL, and the cursor
advances past that NUL (the stream is assumed NUL-terminated, as the
remote list operation produces it). -/
def split_nul_fuel : Nat → List Nat → List (List Nat)
  | 0, _ => []
  | _, [] => []
  | fuel + 1, x :: xs =>
    let name := (x :: xs).takeWhile (fun b => b ≠ 0)
    name :: split_nul_fuel fuel ((x :: xs).drop (name.length + 1))

/-- The walk of dfs_readdir over the NUL-separated child-name stream. -/
def split_nul (l : List Nat) : List (List Nat) :=
  split_nul_fuel l.length l

/-- The fill loop of dfs_readdir: child names are handed to the fill
callback in order until it reports a full buffer (result 1); the name on
which it reports full is not delivered. -/
def readdir_fill (full : Nat → Bool) : Nat → List (List Nat) → List (List Nat)
  | _, [] => []
  | i, name :: rest =>
    if full i then [] else name :: readdir_fill full (i + 1) rest

/-- dfs_readdir (fuse-operations.cpp lines 1078-1108).  No root,
traversal or listing check is performed; the offset argument of the C
function is ignored by its body and omitted here.  Returns the result,
the child names delivered to the fill callback, and the trace. -/
def dfs_readdir (o : OptionList) (env : Env) (path : String) :
    Int × List (List Nat) × List Event :=
  if !env.attach_ok then (-EIOERR, [], [Event.attachFail] ++ logEv o)
  else if !env.encode_path_ok then
    (-EIOERR, [], [Event.attachOk] ++ logEv o ++ [Event.detach])
  else
    match env.list_result with
    | CallResult.fault exc =>
      (-(env_error_code env exc), [],
        [Event.attachOk, Event.callList path] ++ logEv o ++ [Event.detach])
    | CallResult.transport =>
      (-EIOERR, [],
        [Event.attachOk, Event.callList path] ++ logEv o ++ [Event.detach])
    | CallResult.ok received =>
      if !env.decode_ok then
        (-EIOERR, [],
          [Event.attachOk, Event.callList path] ++ logEv o ++ [Event.detach])
      else
        (SUCCESS, readdir_fill env.fill_full 0 (split_nul received),
          [Event.attachOk, Event.callList path, Event.detach])

/-- dfs_access (fuse-operations.cpp lines 1162-1188). -/
def dfs_access (o : OptionList) (env : Env) (path : String) (mode : Nat) :
    Int × List Event :=
  if dfs_is_root path then (dfs_may_access o.directory_mode mode, [])
  else if !dfs_traversals_allowed o then (-EACCES, [])
  else if !env.attach_ok then (-EIOERR, [Event.attachFail] ++ logEv o)
  else if !env.encode_path_ok then
    (-EIOERR, [Event.attachOk] ++ logEv o ++ [Event.detach])
  else
    match env.directory_result with
    | CallResult.fault exc =>
      (-(env_error_code env exc),
        [Event.attachOk, Event.callDirectory path] ++ logEv o ++ [Event.detach])
    | CallResult.transport =>
      (-EIOERR,
        [Event.attachOk, Event.callDirectory path] ++ logEv o ++ [Event.detach])
    | CallResult.ok directory =>
      if directory then
        (dfs_may_access o.directory_mode mode,
          [Event.attachOk, Event.callDirectory path, Event.detach])
      else
        (dfs_may_access o.file_mode mode,
          [Event.attachOk, Event.callDirectory path, Event.detach])

/-- dfs_init (fuse-operations.cpp lines 1209-1267).  The function always
returns NULL, so only the trace is modelled.  Creating the virtual
machine (JNI_CreateJavaVM inside java_initialize) attaches the calling
thread, recorded as an attach event; java_initialize then detaches it. -/
def dfs_init (o : OptionList) (env : Env) : List Event :=
  if o.log_file.isSome && !env.log_init_ok then []
  else if !env.init_vm_ok then logEv o
  else
    [Event.attachOk, Event.detach] ++
      (if !env.attach_ok then [Event.attachFail] ++ logEv o
       else
        [Event.attachOk] ++
          (match env.load_classes_exc with
           | some _ => logEv o ++ logEv o ++ [Event.detach]
           | none =>
             if !env.encode_host_ok then logEv o ++ [Event.detach]
             else
               [Event.callInitHost o.hostname] ++
                 (match env.init_call_result with
                  | CallResult.fault _ => logEv o ++ logEv o ++ [Event.detach]
                  | CallResult.transport => logEv o ++ [Event.detach]
                  | CallResult.ok _ => [Event.detach])))

/-- dfs_destroy: destroys the virtual machine; no attach, detach, remote
call or log write. -/
def dfs_destroy : List Event :=
  []

/-- Event classifier: successful thread attach. -/
def isAttach : Event → Bool
  | Event.attachOk => true
  | _ => false

/-- Event classifier: thread detach. -/
def isDetach : Event → Bool
  | Event.detach => true
  | _ => false

/-- Event classifier: a line written to the log file. -/
def isLog : Event → Bool
  | Event.logLine => true
  | _ => false

/-- Event classifier: a remote call through the port. -/
def isRemote : Event → Bool
  | Event.attachOk => false
  | Event.attachFail => false
  | Event.detach => false
  | Event.logLine => false
  | _ => true

/-- Number of successful attach calls in a trace. -/
def attach_count (t : List Event) : Nat :=
  (t.filter isAttach).length

/-- Number of detach calls in a trace. -/
def detach_count (t : List Event) : Nat :=
  (t.filter isDetach).length

/-- Number of log lines written in a trace. -/
def log_count (t : List Event) : Nat :=
  (t.filter isLog).length

/-- Number of remote calls issued in a trace. -/
def remote_count (t : List Event) : Nat :=
  (t.filter isRemote).length

/-- The per-thread attach state machine: starting from the given
attachment state, every successful attach must find the thread detached,
every detach must find it attached, and the trace must end detached. -/
def wellBracketed : Bool → List Event → Bool
  | false, [] => true
  | true, [] => false
  | attached, e :: rest =>
    match e with
    | Event.attachOk => !attached && wellBracketed true rest
    | Event.attachFail => !attached && wellBracketed false rest
    | Event.detach => attached && wellBracketed false rest
    | _ => wellBracketed attached rest

/-- A trace satisfies the handler attach/detach contract when it is
well-bracketed starting (and hence ending) detached and its successful
attaches are matched one-for-one by detaches. -/
def trace_ok (t : List Event) : Bool :=
  wellBracketed false t && (attach_count t == detach_count t)

/-- A call result that is a typed value, not a fault or transport error. -/
def isOkResult {α : Type} : CallResult α → Bool
  | CallResult.ok _ => true
  | _ => false

/-- An environment in which no unexpected condition arises: the attach,
encode and decode steps succeed, every remote call returns a typed value,
and the remote delete (the one boolean result whose false case is logged)
returns true. -/
def quietEnv (env : Env) : Prop :=
  env.attach_ok = true ∧ env.encode_path_ok = true ∧
    env.encode_buffer_ok = true ∧ env.decode_ok = true ∧
    (∃ v, env.directory_result = CallResult.ok v) ∧
    (∃ v, env.size_result = CallResult.ok v) ∧
    (∃ v, env.createFile_result = CallResult.ok v) ∧
    (∃ v, env.createDirectory_result = CallResult.ok v) ∧
    (∃ v, env.read_result = CallResult.ok v) ∧
    (∃ v, env.write_result = CallResult.ok v) ∧
    (∃ v, env.list_result = CallResult.ok v) ∧
    env.delete_result = CallResult.ok true

theorem attach_count_append (a b : List Event) :
    attach_count (a ++ b) = attach_count a + attach_count b := by
  simp [attach_count, List.filter_append]

theorem detach_count_append (a b : List Event) :
    detach_count (a ++ b) = detach_count a + detach_count b := by
  simp [detach_count, List.filter_append]

theorem log_count_append (a b : List Event) :
    log_count (a ++ b) = log_count a + log_count b := by
  simp [log_count, List.filter_append]

theorem remote_count_append (a b : List Event) :
    remote_count (a ++ b) = remote_count a + remote_count b := by
  simp [remote_count, List.filter_append]

theorem attach_count_logEv (o : OptionList) :
    attach_count (logEv o) = 0 := by
  cases h : o.log_file <;> simp [logEv, h, attach_count, isAttach]

theorem detach_count_logEv (o : OptionList) :
    detach_count (logEv o) = 0 := by
  cases h : o.log_file <;> simp [logEv, h, detach_count, isDetach]

theorem log_count_logEv (o : OptionList) :
    log_count (logEv o) = (logEv o).length := by
  cases h : o.log_file <;> simp [logEv, h, log_count, isLog]

theorem remote_count_logEv (o : OptionList) :
    remote_count (logEv o) = 0 := by
  cases h : o.log_file <;> simp [logEv, h, remote_count, isRemote]

theorem wellBracketed_logEv (b : Bool) (o : OptionList) (l : List Event) :
    wellBracketed b (logEv o ++ l) = wellBracketed b l := by
  cases h : o.log_file <;> simp [logEv, h, wellBracketed]

theorem filter_attach_logEv (o : OptionList) (l : List Event) :
    (logEv o ++ l).filter isAttach = l.filter isAttach := by
  cases h : o.log_file <;> simp [logEv, h, isAttach]

theorem filter_detach_logEv (o : OptionList) (l : List Event) :
    (logEv o ++ l).filter isDetach = l.filter isDetach := by
  cases h : o.log_file <;> simp [logEv, h, isDetach]

theorem filter_attach_logEv_end (o : OptionList) :
    (logEv o).filter isAttach = [] := by
  cases h : o.log_file <;> simp [logEv, h, isAttach]

theorem filter_detach_logEv_end (o : OptionList) :
    (logEv o).filter isDetach = [] := by
  cases h : o.log_file <;> simp [logEv, h, isDetach]

theorem wellBracketed_logEv_end (b : Bool) (o : OptionList) :
    wellBracketed b (logEv o) = wellBracketed b [] := by
  cases h : o.log_file <;> simp [logEv, h, wellBracketed]

theorem trace_ok_getattr (o : OptionList) (env : Env) (path : String) (st : Stat) :
    trace_ok ((dfs_getattr o env path st).2.2) = true := by
  unfold dfs_getattr
  repeat' split
  all_goals
    simp [trace_ok, wellBracketed, wellBracketed_logEv, attach_count,
      detach_count, filter_attach_logEv, filter_detach_logEv, filter_attach_logEv_end,
      filter_detach_logEv_end, wellBracketed_logEv_end, isAttach,
      isDetach, List.filter]

theorem trace_ok_mknod (o : OptionList) (env : Env) (path : String) :
    trace_ok ((dfs_mknod o env path).2) = true := by
  unfold dfs_mknod
  repeat' split
  all_goals
    simp [trace_ok, wellBracketed, wellBracketed_logEv, attach_count,
      detach_count, filter_attach_logEv, filter_detach_logEv, filter_attach_logEv_end,
      filter_detach_logEv_end, wellBracketed_logEv_end, isAttach,
      isDetach, List.filter]

theorem trace_ok_mkdir (o : OptionList) (env : Env) (path : String) :
    trace_ok ((dfs_mkdir o env path).2) = true := by
  unfold dfs_mkdir
  repeat' split
  all_goals
    simp [trace_ok, wellBracketed, wellBracketed_logEv, attach_count,
      detach_count, filter_attach_logEv, filter_detach_logEv, filter_attach_logEv_end,
      filter_detach_logEv_end, wellBracketed_logEv_end, isAttach,
      isDetach, List.filter]

theorem trace_ok_delete (o : OptionList) (env : Env) (path : String) :
    trace_ok ((dfs_delete o env path).2) = true := by
  unfold dfs_delete
  repeat' split
  all_goals
    simp [trace_ok, wellBracketed, wellBracketed_logEv, attach_count,
      detach_count, filter_attach_logEv, filter_detach_logEv, filter_attach_logEv_end,
      filter_detach_logEv_end, wellBracketed_logEv_end, isAttach,
      isDetach, List.filter]

theorem trace_ok_truncate (o : OptionList) (env : Env) (path : String) (new_size : Int) :
    trace_ok ((dfs_truncate o env path new_size).2) = true := by
  unfold dfs_truncate
  repeat' split
  all_goals
    simp [trace_ok, wellBracketed, wellBracketed_logEv, attach_count,
      detach_count, filter_attach_logEv, filter_detach_logEv, filter_attach_logEv_end,
      filter_detach_logEv_end, wellBracketed_logEv_end, isAttach,
      isDetach, List.filter]

theorem trace_ok_open (o : OptionList) (env : Env) (path : String) (flags : Nat) (fh : Int) :
    trace_ok ((dfs_open o env path flags fh).2.2) = true := by
  unfold dfs_open
  repeat' split
  all_goals
    simp [trace_ok, wellBracketed, wellBracketed_logEv, attach_count,
      detach_count, filter_attach_logEv, filter_detach_logEv, filter_attach_logEv_end,
      filter_detach_logEv_end, wellBracketed_logEv_end, isAttach,
      isDetach, List.filter]

theorem trace_ok_read (o : OptionList) (env : Env) (path : String) (buffer : List Nat) (length : Nat) (offset : Int) (fh : Int) :
    trace_ok ((dfs_read o env path buffer length offset fh).2.2) = true := by
  unfold dfs_read
  repeat' split
  all_goals
    simp [trace_ok, wellBracketed, wellBracketed_logEv, attach_count,
      detach_count, filter_attach_logEv, filter_detach_logEv, filter_attach_logEv_end,
      filter_detach_logEv_end, wellBracketed_logEv_end, isAttach,
      isDetach, List.filter]

theorem trace_ok_write (o : OptionList) (env : Env) (path : String) (buffer : List Nat) (length0 : Nat) (offset : Int) :
    trace_ok ((dfs_write o env path buffer length0 offset).2) = true := by
  unfold dfs_write
  repeat' split
  all_goals
    simp [trace_ok, wellBracketed, wellBracketed_logEv, attach_count,
      detach_count, filter_attach_logEv, filter_detach_logEv, filter_attach_logEv_end,
      filter_detach_logEv_end, wellBracketed_logEv_end, isAttach,
      isDetach, List.filter]

theorem trace_ok_opendir (o : OptionList) (env : Env) (path : String) :
    trace_ok ((dfs_opendir o env path).2) = true := by
  unfold dfs_opendir
  repeat' split
  all_goals
    simp [trace_ok, wellBracketed, wellBracketed_logEv, attach_count,
      detach_count, filter_attach_logEv, filter_detach_logEv, filter_attach_logEv_end,
      filter_detach_logEv_end, wellBracketed_logEv_end, isAttach,
      isDetach, List.filter]

theorem trace_ok_readdir (o : OptionList) (env : Env) (path : String) :
    trace_ok ((dfs_readdir o env path).2.2) = true := by
  unfold dfs_readdir
  repeat' split
  all_goals
    simp [trace_ok, wellBracketed, wellBracketed_logEv, attach_count,
      detach_count, filter_attach_logEv, filter_detach_logEv, filter_attach_logEv_end,
      filter_detach_logEv_end, wellBracketed_logEv_end, isAttach,
      isDetach, List.filter]

theorem trace_ok_access (o : OptionList) (env : Env) (path : String) (mode : Nat) :
    trace_ok ((dfs_access o env path mode).2) = true := by
  unfold dfs_access
  repeat' split
  all_goals
    simp [trace_ok, wellBracketed, wellBracketed_logEv, attach_count,
      detach_count, filter_attach_logEv, filter_detach_logEv, filter_attach_logEv_end,
      filter_detach_logEv_end, wellBracketed_logEv_end, isAttach,
      isDetach, List.filter]

theorem trace_ok_init (o : OptionList) (env : Env) :
    trace_ok ((dfs_init o env)) = true := by
  unfold dfs_init
  repeat' split
  all_goals
    simp [trace_ok, wellBracketed, wellBracketed_logEv, attach_count,
      detach_count, filter_attach_logEv, filter_detach_logEv, filter_attach_logEv_end,
      filter_detach_logEv_end, wellBracketed_logEv_end, isAttach,
      isDetach, List.filter]

theorem trace_ok_statfs (stat : Statvfs) :
    trace_ok (dfs_statfs stat).2.2 = true := by
  rfl

theorem trace_ok_flush (path : String) :
    trace_ok (dfs_flush path).2 = true := by
  rfl

theorem trace_ok_release (path : String) :
    trace_ok (dfs_release path).2 = true := by
  rfl

theorem trace_ok_fsync (path : String) (datasync : Int) :
    trace_ok (dfs_fsync path datasync).2 = true := by
  rfl

theorem trace_ok_releasedir (path : String) :
    trace_ok (dfs_releasedir path).2 = true := by
  rfl

theorem trace_ok_fsyncdir (path : String) (datasync : Int) :
    trace_ok (dfs_fsyncdir path datasync).2 = true := by
  rfl

theorem trace_ok_destroy : trace_ok dfs_destroy = true := by
  rfl

theorem log_quiet_getattr (o : OptionList) (env : Env) (path : String)
    (st : Stat) (hq : quietEnv env) :
    log_count (dfs_getattr o env path st).2.2 = 0 := by
  obtain ⟨h1, h2, h3, h4, ⟨dv, hdr⟩, ⟨sv, hsr⟩, ⟨cfv, hcf⟩, ⟨cdv, hcd⟩,
    ⟨rv, hrr⟩, ⟨wv, hwr⟩, ⟨lv, hlr⟩, hdel⟩ := hq
  cases dv <;>
    simp [dfs_getattr, h1, h2, hdr, hsr, log_count, isLog, List.filter] <;>
    (try (split_ifs <;> simp [log_count, isLog, List.filter]))

theorem log_quiet_mknod (o : OptionList) (env : Env) (path : String)
    (hq : quietEnv env) : log_count (dfs_mknod o env path).2 = 0 := by
  obtain ⟨h1, h2, h3, h4, ⟨dv, hdr⟩, ⟨sv, hsr⟩, ⟨cfv, hcf⟩, ⟨cdv, hcd⟩,
    ⟨rv, hrr⟩, ⟨wv, hwr⟩, ⟨lv, hlr⟩, hdel⟩ := hq
  cases cfv <;>
    simp [dfs_mknod, h1, h2, hcf, log_count, isLog, List.filter] <;>
    (try (split_ifs <;> simp [log_count, isLog, List.filter]))

theorem log_quiet_mkdir (o : OptionList) (env : Env) (path : String)
    (hq : quietEnv env) : log_count (dfs_mkdir o env path).2 = 0 := by
  obtain ⟨h1, h2, h3, h4, ⟨dv, hdr⟩, ⟨sv, hsr⟩, ⟨cfv, hcf⟩, ⟨cdv, hcd⟩,
    ⟨rv, hrr⟩, ⟨wv, hwr⟩, ⟨lv, hlr⟩, hdel⟩ := hq
  cases cdv <;>
    simp [dfs_mkdir, h1, h2, hcd, log_count, isLog, List.filter] <;>
    (try (split_ifs <;> simp [log_count, isLog, List.filter]))

theorem log_quiet_delete (o : OptionList) (env : Env) (path : String)
    (hq : quietEnv env) : log_count (dfs_delete o env path).2 = 0 := by
  obtain ⟨h1, h2, h3, h4, ⟨dv, hdr⟩, ⟨sv, hsr⟩, ⟨cfv, hcf⟩, ⟨cdv, hcd⟩,
    ⟨rv, hrr⟩, ⟨wv, hwr⟩, ⟨lv, hlr⟩, hdel⟩ := hq
  simp [dfs_delete, h1, h2, hdel, log_count, isLog, List.filter] <;>
    (try (split_ifs <;> simp [log_count, isLog, List.filter]))

theorem log_quiet_truncate (o : OptionList) (env : Env) (path : String)
    (new_size : Int) (hq : quietEnv env) :
    log_count (dfs_truncate o env path new_size).2 = 0 := by
  obtain ⟨h1, h2, h3, h4, ⟨dv, hdr⟩, ⟨sv, hsr⟩, ⟨cfv, hcf⟩, ⟨cdv, hcd⟩,
    ⟨rv, hrr⟩, ⟨wv, hwr⟩, ⟨lv, hlr⟩, hdel⟩ := hq
  cases dv <;> cases cfv <;>
    simp [dfs_truncate, h1, h2, hdr, hdel, hcf, log_count, isLog,
      List.filter] <;>
    (try (split_ifs <;> simp [log_count, isLog, List.filter]))

theorem log_quiet_open (o : OptionList) (env : Env) (path : String)
    (flags : Nat) (fh : Int) (hq : quietEnv env) :
    log_count (dfs_open o env path flags fh).2.2 = 0 := by
  obtain ⟨h1, h2, h3, h4, ⟨dv, hdr⟩, ⟨sv, hsr⟩, ⟨cfv, hcf⟩, ⟨cdv, hcd⟩,
    ⟨rv, hrr⟩, ⟨wv, hwr⟩, ⟨lv, hlr⟩, hdel⟩ := hq
  simp [dfs_open, h1, h2, hsr, log_count, isLog, List.filter] <;>
    (try (split_ifs <;> simp [log_count, isLog, List.filter]))

theorem log_quiet_read (o : OptionList) (env : Env) (path : String)
    (buffer : List Nat) (length : Nat) (offset : Int) (fh : Int)
    (hq : quietEnv env) :
    log_count (dfs_read o env path buffer length offset fh).2.2 = 0 := by
  obtain ⟨h1, h2, h3, h4, ⟨dv, hdr⟩, ⟨sv, hsr⟩, ⟨cfv, hcf⟩, ⟨cdv, hcd⟩,
    ⟨rv, hrr⟩, ⟨wv, hwr⟩, ⟨lv, hlr⟩, hdel⟩ := hq
  simp [dfs_read, h1, h2, h4, hrr, log_count, isLog, List.filter] <;>
    (try (split_ifs <;> simp [log_count, isLog, List.filter]))

theorem log_quiet_write (o : OptionList) (env : Env) (path : String)
    (buffer : List Nat) (length0 : Nat) (offset : Int) (hq : quietEnv env) :
    log_count (dfs_write o env path buffer length0 offset).2 = 0 := by
  obtain ⟨h1, h2, h3, h4, ⟨dv, hdr⟩, ⟨sv, hsr⟩, ⟨cfv, hcf⟩, ⟨cdv, hcd⟩,
    ⟨rv, hrr⟩, ⟨wv, hwr⟩, ⟨lv, hlr⟩, hdel⟩ := hq
  simp [dfs_write, h1, h2, h3, hwr, log_count, isLog, List.filter] <;>
    (try (split_ifs <;> simp [log_count, isLog, List.filter]))

theorem log_quiet_statfs (stv : Statvfs) :
    log_count (dfs_statfs stv).2.2 = 0 := by
  rfl

theorem log_quiet_flush (path : String) :
    log_count (dfs_flush path).2 = 0 := by
  rfl

theorem log_quiet_release (path : String) :
    log_count (dfs_release path).2 = 0 := by
  rfl

theorem log_quiet_fsync (path : String) (datasync : Int) :
    log_count (dfs_fsync path datasync).2 = 0 := by
  rfl

theorem log_quiet_releasedir (path : String) :
    log_count (dfs_releasedir path).2 = 0 := by
  rfl

theorem log_quiet_fsyncdir (path : String) (datasync : Int) :
    log_count (dfs_fsyncdir path datasync).2 = 0 := by
  rfl

theorem log_quiet_opendir (o : OptionList) (env : Env) (path : String)
    (hq : quietEnv env) : log_count (dfs_opendir o env path).2 = 0 := by
  obtain ⟨h1, h2, h3, h4, ⟨dv, hdr⟩, ⟨sv, hsr⟩, ⟨cfv, hcf⟩, ⟨cdv, hcd⟩,
    ⟨rv, hrr⟩, ⟨wv, hwr⟩, ⟨lv, hlr⟩, hdel⟩ := hq
  cases dv <;>
    simp [dfs_opendir, h1, h2, hdr, log_count, isLog, List.filter] <;>
    (try (split_ifs <;> simp [log_count, isLog, List.filter]))

theorem log_quiet_readdir (o : OptionList) (env : Env) (path : String)
    (hq : quietEnv env) : log_count (dfs_readdir o env path).2.2 = 0 := by
  obtain ⟨h1, h2, h3, h4, ⟨dv, hdr⟩, ⟨sv, hsr⟩, ⟨cfv, hcf⟩, ⟨cdv, hcd⟩,
    ⟨rv, hrr⟩, ⟨wv, hwr⟩, ⟨lv, hlr⟩, hdel⟩ := hq
  simp [dfs_readdir, h1, h2, h4, hlr, log_count, isLog, List.filter]

theorem log_quiet_access (o : OptionList) (env : Env) (path : String)
    (mode : Nat) (hq : quietEnv env) :
    log_count (dfs_access o env path mode).2 = 0 := by
  obtain ⟨h1, h2, h3, h4, ⟨dv, hdr⟩, ⟨sv, hsr⟩, ⟨cfv, hcf⟩, ⟨cdv, hcd⟩,
    ⟨rv, hrr⟩, ⟨wv, hwr⟩, ⟨lv, hlr⟩, hdel⟩ := hq
  cases dv <;>
    simp [dfs_access, h1, h2, hdr, log_count, isLog, List.filter] <;>
    (try (split_ifs <;> simp [log_count, isLog, List.filter]))

/-- A mount configuration with the default modes (0644 files, 0755
directories) and no log file. -/
def cfgAll : OptionList := ⟨"127.0.0.1", 0o644, 0o755, none⟩

/-- A mount configuration whose directory mode 0600 lacks the owner
execute (traversal) bit. -/
def cfgNoExec : OptionList := ⟨"127.0.0.1", 0o644, 0o600, none⟩

/-- A mount configuration with a configured log file. -/
def cfgLog : OptionList := ⟨"127.0.0.1", 0o644, 0o755, some "errors.log"⟩

/-- A mount configuration whose file mode 0200 lacks the owner read bit. -/
def cfgWriteOnly : OptionList := ⟨"127.0.0.1", 0o200, 0o755, none⟩

/-- A remote fault that is an instance of java/io/FileNotFoundException
and of no other class. -/
def excFNF : JavaException := ⟨fun s => s == "java/io/FileNotFoundException"⟩

/-- An environment in which every boundary step succeeds: the remote
directory test returns true, size 10, create/delete return true, read
returns two bytes, and list returns one NUL-terminated name. -/
def envAllOk : Env := ⟨true, true, true, true, true, fun _ => true,
  CallResult.ok true, CallResult.ok 10, CallResult.ok true, CallResult.ok true,
  CallResult.ok true, CallResult.ok [1, 2], CallResult.ok (),
  CallResult.ok [97, 0], fun _ => false, true, true, none, true,
  CallResult.ok ()⟩

/-- envAllOk except that the remote delete returns false. -/
def envDelFalse : Env := { envAllOk with delete_result := CallResult.ok false }

/-- envAllOk except that the remote delete faults with
FileNotFoundException, and FindClass resolves every class. -/
def envFaultDel : Env :=
  { envAllOk with delete_result := CallResult.fault excFNF }

/-- envAllOk except that the remote delete is lost to a transport error. -/
def envLostDel : Env :=
  { envAllOk with delete_result := CallResult.transport }

/-- An all-zero stat structure. -/
def stZero : Stat := ⟨0, 0, 0, 0, 0, 0, 0, 0⟩

/-- A stat structure holding stale nonzero values in every field. -/
def stDirty : Stat := ⟨11, 12, 13, 14, 15, 16, 17, 7⟩

/-- C1 counterexample: with directory mode 0600 (no owner execute bit),
readdir on the non-root path /x does not return -EACCES: it succeeds and
issues one remote call (the list operation).  This refutes the claim that
every handler on a non-root path returns -EACCES before issuing a remote
call when directory-mode lacks execute; dfs_readdir (like dfs_read and
dfs_write) performs no traversal check at all. -/
theorem C1_counterexample :
    dfs_traversals_allowed cfgNoExec = false ∧
    dfs_is_root "/x" = false ∧
    (dfs_readdir cfgNoExec envAllOk "/x").1 = SUCCESS ∧
    remote_count (dfs_readdir cfgNoExec envAllOk "/x").2.2 = 1 := by
  refine ⟨by decide, by decide, by decide, by decide⟩

/-- C1 (amended): if the configured directory-mode lacks the owner
execute bit, then getattr, mknod, mkdir, unlink/rmdir (dfs_delete),
truncate with new size 0, open, opendir, and access on any non-root path
return -EACCES with an empty boundary trace: no remote call, no attach,
no log write.  (read, write, and readdir are excluded: they perform no
traversal check.) -/
theorem C1_traversal_gate (o : OptionList) (env : Env) (path : String)
    (st : Stat) (flags : Nat) (fh : Int) (mode : Nat)
    (hroot : dfs_is_root path = false)
    (htrav : dfs_traversals_allowed o = false) :
    dfs_getattr o env path st = (-EACCES, st, []) ∧
    dfs_mknod o env path = (-EACCES, []) ∧
    dfs_mkdir o env path = (-EACCES, []) ∧
    dfs_delete o env path = (-EACCES, []) ∧
    dfs_truncate o env path 0 = (-EACCES, []) ∧
    dfs_open o env path flags fh = (-EACCES, fh, []) ∧
    dfs_opendir o env path = (-EACCES, []) ∧
    dfs_access o env path mode = (-EACCES, []) := by
  refine ⟨?_, ?_, ?_, ?_, ?_, ?_, ?_, ?_⟩ <;>
    simp [dfs_getattr, dfs_mknod, dfs_mkdir, dfs_delete, dfs_truncate,
      dfs_open, dfs_opendir, dfs_access, hroot, htrav]

/-- C1 witness: the amended traversal gate applied to the concrete
no-execute configuration, the path /x, and a fully successful remote
environment. -/
theorem C1_witness :
    dfs_is_root "/x" = false ∧ dfs_traversals_allowed cfgNoExec = false ∧
    dfs_mknod cfgNoExec envAllOk "/x" = (-EACCES, []) ∧
    dfs_getattr cfgNoExec envAllOk "/x" stZero = (-EACCES, stZero, []) :=
  ⟨by decide, by decide,
    (C1_traversal_gate cfgNoExec envAllOk "/x" stZero 0 0 0 (by decide)
      (by decide)).2.1,
    (C1_traversal_gate cfgNoExec envAllOk "/x" stZero 0 0 0 (by decide)
      (by decide)).1⟩

/-- C2: the claim is right and the code is wrong.  dfs_getattr documents
that attributes it does not set are zero, but it clears the output
structure with memset(status, 0, sizeof(status)) where status is a
pointer, clearing only the first 8 bytes (st_dev alone on x86-64 Linux).
On a directory, with a caller stat structure holding stale values, the
call succeeds yet reports the stale st_size (7, not 0) and leaves st_ino
and the other fields beyond the first 8 bytes untouched. -/
theorem C2_getattr_memset_too_short :
    (dfs_getattr cfgAll envAllOk "/d" stDirty).1 = SUCCESS ∧
    (dfs_getattr cfgAll envAllOk "/d" stDirty).2.1.st_size = 7 ∧
    (dfs_getattr cfgAll envAllOk "/d" stDirty).2.1.st_ino = 12 ∧
    (dfs_getattr cfgAll envAllOk "/d" stDirty).2.1.st_dev = 0 := by
  refine ⟨by decide, by decide, by decide, by decide⟩

/-- C3: for the root path, mknod and mkdir return -EEXIST, unlink/rmdir
return -EPERM, truncate to size 0 returns -EISDIR, and open returns
-ENOENT, in every configuration and for every remote environment, always
with an empty boundary trace. -/
theorem C3_root_protection (o : OptionList) (env : Env) (flags : Nat)
    (fh : Int) :
    dfs_mknod o env "/" = (-EEXIST, []) ∧
    dfs_mkdir o env "/" = (-EEXIST, []) ∧
    dfs_delete o env "/" = (-EPERM, []) ∧
    dfs_truncate o env "/" 0 = (-EISDIR, []) ∧
    dfs_open o env "/" flags fh = (-ENOENT, fh, []) := by
  refine ⟨?_, ?_, ?_, ?_, ?_⟩ <;>
    simp [dfs_mknod, dfs_mkdir, dfs_delete, dfs_truncate, dfs_open,
      dfs_is_root]

/-- C5: for every handler and every environment, on every exit path the
boundary trace is attach/detach well-bracketed starting and ending with
the thread detached, and the number of detach calls equals the number of
successful attach calls (trace_ok states exactly these two conditions).
In dfs_init, creating the virtual machine attaches the calling thread and
is counted as its successful attach. -/
theorem C5_attach_detach_balance (o : OptionList) (env : Env) (path : String)
    (st : Stat) (new_size : Int) (flags : Nat) (fh : Int) (buffer : List Nat)
    (length : Nat) (offset : Int) (mode : Nat) (datasync : Int)
    (stv : Statvfs) :
    trace_ok (dfs_getattr o env path st).2.2 = true ∧
    trace_ok (dfs_mknod o env path).2 = true ∧
    trace_ok (dfs_mkdir o env path).2 = true ∧
    trace_ok (dfs_delete o env path).2 = true ∧
    trace_ok (dfs_truncate o env path new_size).2 = true ∧
    trace_ok (dfs_open o env path flags fh).2.2 = true ∧
    trace_ok (dfs_read o env path buffer length offset fh).2.2 = true ∧
    trace_ok (dfs_write o env path buffer length offset).2 = true ∧
    trace_ok (dfs_statfs stv).2.2 = true ∧
    trace_ok (dfs_flush path).2 = true ∧
    trace_ok (dfs_release path).2 = true ∧
    trace_ok (dfs_fsync path datasync).2 = true ∧
    trace_ok (dfs_opendir o env path).2 = true ∧
    trace_ok (dfs_readdir o env path).2.2 = true ∧
    trace_ok (dfs_releasedir path).2 = true ∧
    trace_ok (dfs_fsyncdir path datasync).2 = true ∧
    trace_ok (dfs_access o env path mode).2 = true ∧
    trace_ok (dfs_init o env) = true ∧
    trace_ok dfs_destroy = true :=
  ⟨trace_ok_getattr o env path st, trace_ok_mknod o env path,
    trace_ok_mkdir o env path, trace_ok_delete o env path,
    trace_ok_truncate o env path new_size, trace_ok_open o env path flags fh,
    trace_ok_read o env path buffer length offset fh,
    trace_ok_write o env path buffer length offset, trace_ok_statfs stv,
    trace_ok_flush path, trace_ok_release path, trace_ok_fsync path datasync,
    trace_ok_opendir o env path, trace_ok_readdir o env path,
    trace_ok_releasedir path, trace_ok_fsyncdir path datasync,
    trace_ok_access o env path mode, trace_ok_init o env, trace_ok_destroy⟩

theorem masked_mode_no_type_bits (m : Nat) :
    (m &&& PERMISSION_MASK) &&& S_IFMT = 0 := by
  rw [Nat.and_assoc]
  have h : PERMISSION_MASK &&& S_IFMT = 0 := by decide
  rw [h]
  exact Nat.and_zero m

/-- C9: after option parsing, the configured file mode is the supplied
mode masked with 0777, and likewise for the directory mode; in
particular no object-type bit (S_IFMT) survives into either configured
mode. -/
theorem C9_mode_sanitization (o : OptionList) :
    (parse_options o).file_mode = o.file_mode &&& PERMISSION_MASK ∧
    (parse_options o).directory_mode = o.directory_mode &&& PERMISSION_MASK ∧
    (parse_options o).file_mode &&& S_IFMT = 0 ∧
    (parse_options o).directory_mode &&& S_IFMT = 0 :=
  ⟨rfl, rfl, masked_mode_no_type_bits o.file_mode,
    masked_mode_no_type_bits o.directory_mode⟩

/-- C4: the fault table is matched linearly in order
IllegalArgumentException to EINVAL, IndexOutOfBoundsException to EINVAL,
FileNotFoundException to ENOENT, with instance-of (subclass) matching;
any other fault class maps to EIO, and a transport error maps to EIO
(shown on dfs_delete, whose fault path returns the classified code
negated and whose transport path returns -EIO). -/
theorem C4_fault_classification (exc : JavaException) (fc : String → Bool)
    (h1 : fc "java/lang/IllegalArgumentException" = true)
    (h2 : fc "java/lang/IndexOutOfBoundsException" = true)
    (h3 : fc "java/io/FileNotFoundException" = true) :
    (exc.isInstanceOf "java/lang/IllegalArgumentException" = true →
      java_error_code true fc exc = EINVAL) ∧
    (exc.isInstanceOf "java/lang/IllegalArgumentException" = false →
      exc.isInstanceOf "java/lang/IndexOutOfBoundsException" = true →
      java_error_code true fc exc = EINVAL) ∧
    (exc.isInstanceOf "java/lang/IllegalArgumentException" = false →
      exc.isInstanceOf "java/lang/IndexOutOfBoundsException" = false →
      exc.isInstanceOf "java/io/FileNotFoundException" = true →
      java_error_code true fc exc = ENOENT) ∧
    (exc.isInstanceOf "java/lang/IllegalArgumentException" = false →
      exc.isInstanceOf "java/lang/IndexOutOfBoundsException" = false →
      exc.isInstanceOf "java/io/FileNotFoundException" = false →
      java_error_code true fc exc = EIOERR) ∧
    (∀ (o : OptionList) (env : Env) (path : String),
      dfs_is_root path = false → dfs_traversals_allowed o = true →
      dfs_directory_modification_allowed o = true →
      env.attach_ok = true → env.encode_path_ok = true →
      env.jni_env_ok = true → env.findClass = fc →
      (env.delete_result = CallResult.fault exc →
        (dfs_delete o env path).1 = -(java_error_code true fc exc)) ∧
      (env.delete_result = CallResult.transport →
        (dfs_delete o env path).1 = -EIOERR)) := by
  refine ⟨?_, ?_, ?_, ?_, ?_⟩
  · intro hi
    simp [java_error_code, find_error_code, exceptions, h1, hi]
  · intro hi1 hi2
    simp [java_error_code, find_error_code, exceptions, h1, h2, hi1, hi2]
  · intro hi1 hi2 hi3
    simp [java_error_code, find_error_code, exceptions, h1, h2, h3, hi1, hi2,
      hi3]
  · intro hi1 hi2 hi3
    simp [java_error_code, find_error_code, exceptions, h1, h2, h3, hi1, hi2,
      hi3, DEFAULT_ERROR]
  · intro o env path hr ht hm ha he hj hfc
    constructor
    · intro hd
      simp [dfs_delete, hr, ht, hm, ha, he, hd, env_error_code, hj, hfc]
    · intro hd
      simp [dfs_delete, hr, ht, hm, ha, he, hd]

/-- C4 witness: a FileNotFoundException fault classifies to ENOENT, and
dfs_delete returns the negated classified code on a fault and -EIO on a
transport error, at the default configuration. -/
theorem C4_witness :
    excFNF.isInstanceOf "java/io/FileNotFoundException" = true ∧
    java_error_code true (fun _ => true) excFNF = ENOENT ∧
    (dfs_delete cfgAll envFaultDel "/x").1 =
      -(java_error_code true (fun _ => true) excFNF) ∧
    (dfs_delete cfgAll envLostDel "/x").1 = -EIOERR := by
  have hc := C4_fault_classification excFNF (fun _ => true) rfl rfl rfl
  refine ⟨by decide, ?_, ?_, ?_⟩
  · exact hc.2.2.1 (by decide) (by decide) (by decide)
  · exact (hc.2.2.2.2 cfgAll envFaultDel "/x" (by decide) (by decide)
      (by decide) rfl rfl rfl rfl).1 rfl
  · exact (hc.2.2.2.2 cfgAll envLostDel "/x" (by decide) (by decide)
      (by decide) rfl rfl rfl rfl).2 rfl

theorem saturate_length_le (length : Nat) : saturate_length length ≤ INT_MAX_N := by
  unfold saturate_length
  split <;> omega

/-- C6: a read whose offset exceeds LLONG_MAX zero-fills the caller
buffer region and returns 0 with an empty boundary trace (no remote
call); a write whose offset exceeds LLONG_MAX returns -EFBIG with an
empty trace; and a write whose offset plus saturated length exceeds
LLONG_MAX (evaluated, as in the source, in unsigned 64-bit arithmetic)
returns -EFBIG with an empty trace. -/
theorem C6_large_offset (o : OptionList) (env : Env) (path : String)
    (buffer : List Nat) (length : Nat) (offset : Int) (fh : Int) :
    (offset > LLONG_MAX →
      dfs_read o env path buffer length offset fh =
        (0, List.replicate length 0 ++ buffer.drop length, [])) ∧
    (offset > LLONG_MAX →
      dfs_write o env path buffer length offset = (-EFBIG, [])) ∧
    (0 ≤ offset → offset ≤ LLONG_MAX →
      offset.toNat + saturate_length length > LLONG_MAX_N →
      dfs_write o env path buffer length offset = (-EFBIG, [])) := by
  refine ⟨?_, ?_, ?_⟩
  · intro h
    simp [dfs_read, h]
  · intro h
    simp [dfs_write, h]
  · intro h0 h1 h2
    have hlt : offset < (UINT64_MOD : Int) := by
      unfold LLONG_MAX at h1
      unfold UINT64_MOD
      norm_num at h1 ⊢
      omega
    have hmod : offset % (UINT64_MOD : Int) = offset := Int.emod_eq_of_lt h0 hlt
    have htn : offset.toNat ≤ LLONG_MAX_N := by
      have h3 := Int.toNat_le_toNat h1
      have h4 : LLONG_MAX.toNat = LLONG_MAX_N := by decide
      omega
    have hsat := saturate_length_le length
    have hsum : offset.toNat + saturate_length length < UINT64_MOD := by
      unfold LLONG_MAX_N at htn
      unfold INT_MAX_N at hsat
      unfold UINT64_MOD
      norm_num at htn hsat ⊢
      omega
    have hcond : ((offset % (UINT64_MOD : Int)).toNat + saturate_length length)
        % UINT64_MOD > LLONG_MAX_N := by
      rw [hmod, Nat.mod_eq_of_lt hsum]
      exact h2
    simp [dfs_write, hcond, not_lt.mpr h1]

/-- C6 witness: the large-offset branches evaluated at offset 2 to the
63 (just past LLONG_MAX) for read and write, and at offset LLONG_MAX
with length 1 for the overflow branch of write. -/
theorem C6_witness :
    ((2 ^ 63 : Int) > LLONG_MAX ∧
      dfs_read cfgAll envAllOk "/x" [7, 7, 7] 3 (2 ^ 63) 0 =
        (0, List.replicate 3 0 ++ List.drop 3 [7, 7, 7], []) ∧
      dfs_write cfgAll envAllOk "/x" [7] 3 (2 ^ 63) = (-EFBIG, [])) ∧
    ((0 : Int) ≤ LLONG_MAX ∧
      LLONG_MAX.toNat + saturate_length 1 > LLONG_MAX_N ∧
      dfs_write cfgAll envAllOk "/x" [7] 1 LLONG_MAX = (-EFBIG, [])) := by
  refine ⟨⟨by decide, ?_, ?_⟩, by decide, by decide, ?_⟩
  · exact (C6_large_offset cfgAll envAllOk "/x" [7, 7, 7] 3 (2 ^ 63) 0).1
      (by decide)
  · exact (C6_large_offset cfgAll envAllOk "/x" [7] 3 (2 ^ 63) 0).2.1
      (by decide)
  · exact (C6_large_offset cfgAll envAllOk "/x" [7] 1 LLONG_MAX 0).2.2
      (by decide) (by decide) (by decide)

/-- C7: a requested length above INT_MAX is saturated to INT_MAX: the
remote read is passed exactly INT_MAX as its length argument, and the
remote write is passed exactly the first INT_MAX bytes of the caller
buffer and the handler returns INT_MAX on success (the caller buffer
holds at least the requested number of bytes, so the buffer passed has
exactly INT_MAX bytes). -/
theorem C7_length_saturation (o : OptionList) (env : Env) (path : String)
    (buffer : List Nat) (length : Nat) (offset : Int) (fh : Int)
    (received : List Nat)
    (hlen : length > INT_MAX_N) :
    saturate_length length = INT_MAX_N ∧
    (env.attach_ok = true → env.encode_path_ok = true →
      env.decode_ok = true → env.read_result = CallResult.ok received →
      offset ≤ LLONG_MAX →
      (dfs_read o env path buffer length offset fh).2.2 =
        [Event.attachOk, Event.callRead path offset (INT_MAX_N : Int) fh,
          Event.detach]) ∧
    (env.attach_ok = true → env.encode_path_ok = true →
      env.encode_buffer_ok = true → env.write_result = CallResult.ok () →
      0 ≤ offset → offset.toNat + INT_MAX_N ≤ LLONG_MAX_N →
      dfs_write o env path buffer length offset =
        ((INT_MAX_N : Int),
          [Event.attachOk, Event.callWrite path offset (buffer.take INT_MAX_N),
            Event.detach])) ∧
    (length ≤ buffer.length → (buffer.take INT_MAX_N).length = INT_MAX_N) := by
  have hsat : saturate_length length = INT_MAX_N := by
    unfold saturate_length
    simp [hlen]
  refine ⟨hsat, ?_, ?_, ?_⟩
  · intro ha he hd hr hoff
    simp [dfs_read, ha, he, hd, hr, hsat, not_lt.mpr hoff]
  · intro ha he hb hw h0 hmax
    have hoff : offset ≤ LLONG_MAX := by
      have h5 : offset.toNat ≤ LLONG_MAX_N := by omega
      have h6 : offset ≤ ((LLONG_MAX_N : Nat) : Int) := Int.toNat_le.mp h5
      have h7 : ((LLONG_MAX_N : Nat) : Int) = LLONG_MAX := by decide
      omega
    have hlt : offset < (UINT64_MOD : Int) := by
      unfold LLONG_MAX at hoff
      unfold UINT64_MOD
      norm_num at hoff ⊢
      omega
    have hmod : offset % (UINT64_MOD : Int) = offset := Int.emod_eq_of_lt h0 hlt
    have hsum : offset.toNat + INT_MAX_N < UINT64_MOD := by
      unfold LLONG_MAX_N at hmax
      unfold UINT64_MOD
      unfold INT_MAX_N at hmax ⊢
      norm_num at hmax ⊢
      omega
    have hcond : ¬(((offset % (UINT64_MOD : Int)).toNat + INT_MAX_N)
        % UINT64_MOD > LLONG_MAX_N) := by
      rw [hmod, Nat.mod_eq_of_lt hsum]
      omega
    simp [dfs_write, ha, he, hb, hw, hsat, hcond, not_lt.mpr hoff]
  · intro hble
    rw [List.length_take]
    omega

/-- C7 witness: the saturation behaviour at the concrete length 2 to the
31, one above INT_MAX: the remote read is passed INT_MAX, and the write
of a buffer of 2 to the 31 bytes passes its first INT_MAX bytes and
returns INT_MAX. -/
theorem C7_witness :
    (2 ^ 31 : Nat) > INT_MAX_N ∧
    (dfs_read cfgAll envAllOk "/x" [] (2 ^ 31) 5 0).2.2 =
      [Event.attachOk, Event.callRead "/x" 5 (INT_MAX_N : Int) 0,
        Event.detach] ∧
    dfs_write cfgAll envAllOk "/x" (List.replicate (2 ^ 31) 7) (2 ^ 31) 0 =
      ((INT_MAX_N : Int),
        [Event.attachOk,
          Event.callWrite "/x" 0 ((List.replicate (2 ^ 31) 7).take INT_MAX_N),
          Event.detach]) ∧
    ((List.replicate (2 ^ 31) 7).take INT_MAX_N).length = INT_MAX_N := by
  have hc := C7_length_saturation cfgAll envAllOk "/x"
    (List.replicate (2 ^ 31) 7) (2 ^ 31) 0 0 [1, 2] (by decide)
  have hr := C7_length_saturation cfgAll envAllOk "/x" [] (2 ^ 31) 5 0 [1, 2]
    (by decide)
  refine ⟨by decide, ?_, ?_, ?_⟩
  · exact hr.2.1 rfl rfl rfl rfl (by decide)
  · exact hc.2.2.1 rfl rfl rfl rfl (by decide) (by decide)
  · exact hc.2.2.2 (by rw [List.length_replicate])

/-- C8 counterexample: with a log file configured, unlink/rmdir on /x
whose remote delete returns false returns -EPERM and writes one log line
(the "cannot delete" message), refuting the claim that a sequence of
calls whose results are drawn from the listed benign codes writes zero
log lines, and in particular that unlink/rmdir returning -EPERM writes
nothing. -/
theorem C8_counterexample :
    (dfs_delete cfgLog envDelFalse "/x").1 = -EPERM ∧
    log_count (dfs_delete cfgLog envDelFalse "/x").2 = 1 := by
  refine ⟨by decide, by decide⟩

/-- C8 (amended): in a quiet environment (no remote fault, no transport
error, no attach/encode/decode failure, and the remote delete, if
consulted, returning true) every handler writes zero log lines, whatever
its result; the one exception among the benign result codes is
unlink/rmdir returning -EPERM because the remote delete returned false,
which writes exactly one log line when a log file is configured. -/
theorem C8_log_silence (o : OptionList) (env : Env) (path : String) (st : Stat)
    (new_size : Int) (flags : Nat) (fh : Int) (buffer : List Nat)
    (length : Nat) (offset : Int) (mode : Nat) (datasync : Int)
    (stv : Statvfs) :
    (quietEnv env →
      log_count (dfs_getattr o env path st).2.2 = 0 ∧
      log_count (dfs_mknod o env path).2 = 0 ∧
      log_count (dfs_mkdir o env path).2 = 0 ∧
      log_count (dfs_delete o env path).2 = 0 ∧
      log_count (dfs_truncate o env path new_size).2 = 0 ∧
      log_count (dfs_open o env path flags fh).2.2 = 0 ∧
      log_count (dfs_read o env path buffer length offset fh).2.2 = 0 ∧
      log_count (dfs_write o env path buffer length offset).2 = 0 ∧
      log_count (dfs_statfs stv).2.2 = 0 ∧
      log_count (dfs_flush path).2 = 0 ∧
      log_count (dfs_release path).2 = 0 ∧
      log_count (dfs_fsync path datasync).2 = 0 ∧
      log_count (dfs_opendir o env path).2 = 0 ∧
      log_count (dfs_readdir o env path).2.2 = 0 ∧
      log_count (dfs_releasedir path).2 = 0 ∧
      log_count (dfs_fsyncdir path datasync).2 = 0 ∧
      log_count (dfs_access o env path mode).2 = 0) ∧
    (env.attach_ok = true → env.encode_path_ok = true →
      env.delete_result = CallResult.ok false →
      dfs_is_root path = false → dfs_traversals_allowed o = true →
      dfs_directory_modification_allowed o = true →
      dfs_delete o env path =
        (-EPERM,
          [Event.attachOk, Event.callDelete path] ++ logEv o ++
            [Event.detach])) := by
  constructor
  · intro hq
    exact ⟨log_quiet_getattr o env path st hq, log_quiet_mknod o env path hq,
      log_quiet_mkdir o env path hq, log_quiet_delete o env path hq,
      log_quiet_truncate o env path new_size hq,
      log_quiet_open o env path flags fh hq,
      log_quiet_read o env path buffer length offset fh hq,
      log_quiet_write o env path buffer length offset hq,
      log_quiet_statfs stv, log_quiet_flush path, log_quiet_release path,
      log_quiet_fsync path datasync, log_quiet_opendir o env path hq,
      log_quiet_readdir o env path hq, log_quiet_releasedir path,
      log_quiet_fsyncdir path datasync, log_quiet_access o env path mode hq⟩
  · intro ha he hd hr ht hm
    simp [dfs_delete, ha, he, hd, hr, ht, hm]

/-- C8 witness: with the logging configuration, a quiet delete writes
zero log lines, and a delete whose remote delete returns false yields
-EPERM with exactly the one-line log write in its trace. -/
theorem C8_witness :
    log_count (dfs_delete cfgLog envAllOk "/y").2 = 0 ∧
    dfs_delete cfgLog envDelFalse "/x" =
      (-EPERM,
        [Event.attachOk, Event.callDelete "/x"] ++ logEv cfgLog ++
          [Event.detach]) := by
  have hq : quietEnv envAllOk :=
    ⟨rfl, rfl, rfl, rfl, ⟨true, rfl⟩, ⟨10, rfl⟩, ⟨true, rfl⟩, ⟨true, rfl⟩,
      ⟨[1, 2], rfl⟩, ⟨(), rfl⟩, ⟨[97, 0], rfl⟩, rfl⟩
  constructor
  · exact ((C8_log_silence cfgLog envAllOk "/y" stZero 0 0 0 [] 0 0 0 0
      ⟨0, 0, 0, 0⟩).1 hq).2.2.2.1
  · exact (C8_log_silence cfgLog envDelFalse "/x" stZero 0 0 0 [] 0 0 0 0
      ⟨0, 0, 0, 0⟩).2 rfl rfl rfl (by decide) (by decide) (by decide)

/-- C10: when the configured file mode lacks the owner read bit, open on
an existing non-root file returns -EACCES for every flags word, including
a pure write-only open, because the O_RDONLY mask is zero and therefore
(flags AND O_RDONLY) = O_RDONLY holds for every flags word, forcing a
read-permission check on every open. -/
theorem C10_open_requires_read (o : OptionList) (env : Env) (path : String)
    (flags : Nat) (fh : Int) (size : Int)
    (hroot : dfs_is_root path = false)
    (htrav : dfs_traversals_allowed o = true)
    (hattach : env.attach_ok = true)
    (hencode : env.encode_path_ok = true)
    (hsize : env.size_result = CallResult.ok size)
    (hread : o.file_mode &&& S_IRUSR = 0) :
    (dfs_open o env path flags fh).1 = -EACCES := by
  have hmayR : dfs_may_access o.file_mode R_OK = -EACCES := by
    unfold dfs_may_access
    rw [if_pos ⟨by decide, hread⟩]
  have hmayRW : dfs_may_access o.file_mode (R_OK ||| W_OK) = -EACCES := by
    unfold dfs_may_access
    rw [if_pos ⟨by decide, hread⟩]
  have hne : (-EACCES : Int) ≠ SUCCESS := by decide
  by_cases hrw : flags &&& O_RDWR = O_RDWR
  · simp [dfs_open, hroot, htrav, hattach, hencode, hsize, hrw, hmayRW, hne]
  · simp [dfs_open, hroot, htrav, hattach, hencode, hsize, hrw, hmayR, hne,
      O_RDONLY]

/-- C10 witness: a pure write-only open (flags O_WRONLY) of /x under the
configuration whose file mode 0200 has no owner read bit is denied with
-EACCES even though only write access was requested. -/
theorem C10_witness :
    cfgWriteOnly.file_mode &&& S_IRUSR = 0 ∧
    O_WRONLY &&& O_RDWR ≠ O_RDWR ∧
    (dfs_open cfgWriteOnly envAllOk "/x" O_WRONLY 0).1 = -EACCES :=
  ⟨by decide, by decide,
    C10_open_requires_read cfgWriteOnly envAllOk "/x" O_WRONLY 0 10
      (by decide) (by decide) rfl rfl rfl (by decide)⟩
